import Mathlib

/-!
# `webllm_widget.js`: a chat widget over an in-browser inference engine

A shallow embedding of `src/webllm_widget.js`.

* The module-level variables (`MODEL_ID`, `CACHE_NAME`, `SYSTEM_PROMPT`,
  `engine`, `messages`) and the parts of the page the script reads or writes
  (`chatOutput` children, `userInput.value`, `statusDiv.innerText`) are the
  fields of `State`.
* The external collaborators (`fetch`, `CreateMLCEngine`,
  `engine.chat.completions.create`, `confirm`, `caches.delete`) are not
  executed: what they answer is an argument of the handler that calls them, and
  every call made to them is recorded, in order, in `State.trace`.
* Each handler is run to completion; handlers do not overlap.
* A configuration field is a string or `undefined` (`none`), the type the
  configuration contract gives it.
* `console.*` calls, `scrollTop` and the textarea height are layout/diagnostic
  effects that no handler reads back; they are left out.
-/

namespace WebLLMWidget

/-! ## Data model -/

/-- The `role` strings the script puts in a history entry. -/
inductive Role where
  | system
  | user
  | assistant
  deriving DecidableEq, Repr

/-- One entry of `messages`; `content = none` is JavaScript `undefined`. -/
structure Message where
  role : Role
  content : Option String
  deriving DecidableEq, Repr

/-- The `delta` object of a streamed choice. -/
structure Delta where
  content : Option String
  deriving DecidableEq, Repr

/-- One element of `chunk.choices`. -/
structure Choice where
  delta : Option Delta
  deriving DecidableEq, Repr

/-- One streamed chunk. -/
structure Chunk where
  choices : List Choice
  deriving DecidableEq, Repr

/-- The engine object returned by `CreateMLCEngine`; only its identity matters. -/
structure EngineHandle where
  id : Nat
  deriving DecidableEq, Repr

/-- A child of `chatOutput`: the `div` built by `appendMessage`, with the text of its `p`. -/
structure Node where
  className : String
  textContent : String
  deriving DecidableEq, Repr

/-- Calls made to the page and to the external collaborators, as they happen. -/
inductive Effect where
  | setStatus (text : String)
  | fetch (url : String)
  | createEngine (modelId : Option String) (useIndexedDBCache : Bool)
  | appendChild (className : String) (text : String)
  | setTextContent (node : Nat) (text : String)
  | completionsCreate (messages : List Message) (stream : Bool)
  | confirm (question : String)
  | cachesDelete (name : String)
  deriving DecidableEq, Repr

/-- Module state together with the page state the script touches. -/
structure State where
  MODEL_ID : Option String
  CACHE_NAME : Option String
  SYSTEM_PROMPT : Option String
  engine : Option EngineHandle
  messages : List Message
  chatOutput : List Node
  userInput : String
  statusText : String
  trace : List Effect
  deriving DecidableEq, Repr

/-- Values thrown inside the script. -/
inductive JsError where
  | httpError (status : Nat)
  | typeError
  | external (message : String)
  deriving DecidableEq, Repr

/-- What an `async` function that can reject leaves behind: the state, and the error if any. -/
structure Result where
  state : State
  raised : Option JsError
  deriving DecidableEq, Repr

/-! ## Answers of the collaborators -/

/-- The outcome of `response.json()`: a parse failure, the value `null` (reading a property of
it throws), or any other value, given by what `config.MODEL_ID`, `config.CACHE_NAME` and
`config.SYSTEM_PROMPT` read on it (`none` for a field that is absent). -/
inductive Body where
  | parseFailure (e : JsError)
  | null
  | object (MODEL_ID CACHE_NAME SYSTEM_PROMPT : Option String)
  deriving DecidableEq, Repr

/-- The outcome of `fetch('./config.json')`. -/
inductive FetchOutcome where
  | rejects (e : JsError)
  | response (status : Nat) (body : Body)
  deriving DecidableEq, Repr

/-- The outcome of `CreateMLCEngine`: the progress reports, then a handle or an error. -/
structure InitOutcome where
  reports : List String
  result : Except JsError EngineHandle

/-- How an async iteration ends. -/
inductive StreamEnd where
  | done
  | throws
  deriving DecidableEq, Repr

/-- The outcome of `engine.chat.completions.create`. -/
inductive Completion where
  | rejects
  | resolves (chunks : List Chunk) (ending : StreamEnd)
  deriving DecidableEq, Repr

/-- The outcome of `caches.delete`. -/
inductive DeleteOutcome where
  | returns (found : Bool)
  | throws
  deriving DecidableEq, Repr

/-! ## Primitives -/

/-- The code points `String.prototype.trim` strips (WhiteSpace and LineTerminator). -/
def isJsWhiteSpace (c : Char) : Bool :=
  let n := c.toNat
  n == 0x09 || n == 0x0A || n == 0x0B || n == 0x0C || n == 0x0D || n == 0x20 ||
  n == 0xA0 || n == 0x1680 || (0x2000 ≤ n && n ≤ 0x200A) || n == 0x2028 ||
  n == 0x2029 || n == 0x202F || n == 0x205F || n == 0x3000 || n == 0xFEFF

/-- Strips leading and trailing white space from a list of characters. -/
def trimChars (l : List Char) : List Char :=
  ((l.dropWhile isJsWhiteSpace).reverse.dropWhile isJsWhiteSpace).reverse

/-- The built-in `String.prototype.trim`. -/
def jsTrim (s : String) : String :=
  String.mk (trimChars s.data)

/-- The flag `response.ok`: the status is in the range 200-299. -/
def responseOk (status : Nat) : Bool :=
  200 ≤ status && status ≤ 299

/-- Records a call in the trace. -/
def emit (s : State) (e : Effect) : State :=
  { s with trace := s.trace ++ [e] }

/-- The assignment `statusDiv.innerText = text`. -/
def setStatus (s : State) (text : String) : State :=
  { s with statusText := text, trace := s.trace ++ [Effect.setStatus text] }

/-- Replaces the text of the `i`-th node of a list. -/
def setNodeText : List Node → Nat → String → List Node
  | [], _, _ => []
  | n :: ns, 0, text => { n with textContent := text } :: ns
  | n :: ns, i + 1, text => n :: setNodeText ns i text

/-- The assignment `paragraph.textContent = text`, for the paragraph of node `i`. -/
def setTextContent (s : State) (i : Nat) (text : String) : State :=
  { s with chatOutput := setNodeText s.chatOutput i text,
           trace := s.trace ++ [Effect.setTextContent i text] }

/-- The function `appendMessage(role, text)`; the container it returns is named by its index
in `chatOutput`. -/
def appendMessage (s : State) (role : String) (text : String) : State × Nat :=
  let className := "message " ++ role ++ "-message"
  ({ s with chatOutput := s.chatOutput ++ [{ className := className, textContent := text }],
            trace := s.trace ++ [Effect.appendChild className text] },
   s.chatOutput.length)

/-- The expression `chunk.choices[0]?.delta?.content || ""`. -/
def chunkContent (c : Chunk) : String :=
  match c.choices.head? with
  | none => ""
  | some choice =>
    match choice.delta with
    | none => ""
    | some d =>
      match d.content with
      | none => ""
      | some t => t

/-! ## Fixed texts -/

def notReadyNotice : String :=
  "Model not ready. Please wait for the required ~880MB download and initialization to complete."

def errorNotice : String := "Error generating response."

def confirmQuestion : String :=
  "Are you sure you want to clear the model cache? This will require re-downloading it next time."

def cacheClearedStatus : String :=
  "Model cache cleared from Cache Storage. Reload the page to re-initialize if needed."

def cacheNotFoundStatus : String :=
  "Model cache not found or could not be cleared (check if CACHE_NAME is set)."

def cacheErrorStatus : String := "Error clearing cache. See console for details."

def appFailedStatus : String := "Application failed to initialize. See console for details."

def modelReadyStatus : String := "Model ready! Ask me anything..."

/-! ## The handlers -/

/-- The `catch` block of `loadConfig`. -/
def loadConfigCatch (s : State) (e : JsError) : Result :=
  { state := setStatus s "Error loading configuration. See console for details.",
    raised := some e }

/-- The function `loadConfig()`; `f` is what `fetch` and `response.json()` answer. -/
def loadConfig (s : State) (f : FetchOutcome) : Result :=
  let s := setStatus s "Loading configuration..."
  let s := emit s (Effect.fetch "./config.json")
  match f with
  | .rejects e => loadConfigCatch s e
  | .response status body =>
    if responseOk status then
      match body with
      | .parseFailure e => loadConfigCatch s e
      | .null => loadConfigCatch s JsError.typeError
      | .object m c p =>
        let s := { s with MODEL_ID := m, CACHE_NAME := c, SYSTEM_PROMPT := p,
                          messages := [{ role := Role.system, content := p }] }
        { state := setStatus s "Configuration loaded.", raised := none }
    else loadConfigCatch s (JsError.httpError status)

/-- The function `initializeWebLLM()`; `o` is what `CreateMLCEngine` reports and answers. -/
def initializeWebLLM (s : State) (o : InitOutcome) : Result :=
  let s := setStatus s "Starting engine initialization..."
  let s := emit s (Effect.createEngine s.MODEL_ID true)
  let s := o.reports.foldl setStatus s
  match o.result with
  | .ok h =>
    { state := setStatus { s with engine := some h } modelReadyStatus, raised := none }
  | .error e =>
    { state := setStatus s "Error initializing model. See console for details.",
      raised := some e }

/-- The function `initApp()`. -/
def initApp (s : State) (f : FetchOutcome) (o : InitOutcome) : Result :=
  let r := loadConfig s f
  match r.raised with
  | some _ => { state := setStatus r.state appFailedStatus, raised := none }
  | none =>
    let r := initializeWebLLM r.state o
    match r.raised with
    | some _ => { state := setStatus r.state appFailedStatus, raised := none }
    | none => { state := r.state, raised := none }

/-- One pass of the `for await` body: accumulate the delta and show the accumulated text. -/
def streamStep (ai : Nat) (acc : State × String) (chunk : Chunk) : State × String :=
  let aiResponse := acc.2 ++ chunkContent chunk
  (setTextContent acc.1 ai aiResponse, aiResponse)

/-- The function `handleChat()`; `resp` is what the engine answers if a completion is
requested. -/
def handleChat (s : State) (resp : Completion) : State :=
  let userText := jsTrim s.userInput
  if userText = "" then s
  else
    match s.engine with
    | none => (appendMessage s "ai" notReadyNotice).1
    | some _ =>
      let s := { s with userInput := "" }
      let s := (appendMessage s "user" userText).1
      let s := { s with messages := s.messages ++ [{ role := Role.user, content := some userText }] }
      let (s, ai) := appendMessage s "ai" "Thinking..."
      let s := emit s (Effect.completionsCreate s.messages true)
      match resp with
      | .rejects => setTextContent s ai errorNotice
      | .resolves chunks ending =>
        let s := setTextContent s ai ""
        let (s, aiResponse) := chunks.foldl (streamStep ai) (s, "")
        match ending with
        | .done =>
          { s with messages := s.messages ++ [{ role := Role.assistant, content := some aiResponse }] }
        | .throws => setTextContent s ai errorNotice

/-- The click handler of `clearCacheBtn`; `confirmed` is what `confirm` answers and `del` what
`caches.delete` answers if it is called. -/
def clearCacheClick (s : State) (confirmed : Bool) (del : DeleteOutcome) : State :=
  let s := emit s (Effect.confirm confirmQuestion)
  if confirmed then
    let s := setStatus s "Clearing model cache..."
    match s.CACHE_NAME with
    | none => setStatus s cacheNotFoundStatus
    | some name =>
      if name = "" then setStatus s cacheNotFoundStatus
      else
        let s := emit s (Effect.cachesDelete name)
        match del with
        | .returns true => { setStatus s cacheClearedStatus with engine := none }
        | .returns false => setStatus s cacheNotFoundStatus
        | .throws => setStatus s cacheErrorStatus
  else s

/-- The handler `window.onbeforeunload`; what `caches.delete` answers only selects a console
message. -/
def onbeforeunload (s : State) : State :=
  match s.CACHE_NAME with
  | none => s
  | some name => if name = "" then s else emit s (Effect.cachesDelete name)

/-- The module state right after the top-level declarations, on a given page. -/
def moduleInit (chatOutput : List Node) (userInput statusText : String) : State :=
  { MODEL_ID := none, CACHE_NAME := none, SYSTEM_PROMPT := none, engine := none,
    messages := [], chatOutput := chatOutput, userInput := userInput,
    statusText := statusText, trace := [] }

/-! ## Sessions -/

/-- What can happen on the page once it is up: the user types `input` and submits it,
clicks the clear-cache button, the engine is (re)initialised, or the page unloads. -/
inductive Action where
  | chat (input : String) (resp : Completion)
  | clearCache (confirmed : Bool) (del : DeleteOutcome)
  | initEngine (o : InitOutcome)
  | unload

/-- Runs the handler an action triggers. -/
def step (s : State) : Action → State
  | .chat input resp => handleChat { s with userInput := input } resp
  | .clearCache confirmed del => clearCacheClick s confirmed del
  | .initEngine o => (initializeWebLLM s o).state
  | .unload => onbeforeunload s

/-- Runs a sequence of actions, one handler after the other. -/
def run (s : State) (acts : List Action) : State :=
  acts.foldl step s

/-- A user/assistant turn: the user submits `text` and the completion streams `chunks` to the end. -/
def turn (s : State) (t : String × List Chunk) : State :=
  handleChat { s with userInput := t.1 } (Completion.resolves t.2 StreamEnd.done)

/-- Runs a sequence of user/assistant turns. -/
def runTurns (s : State) (turns : List (String × List Chunk)) : State :=
  turns.foldl turn s

/-- The state after a start-up in which the configuration `m`, `c`, `p` is fetched with
status 200 and the engine is created, on a page whose chat log is empty. -/
def freshSession (m c p : Option String) (reports : List String) (h : EngineHandle)
    (userInput statusText : String) : State :=
  (initApp (moduleInit [] userInput statusText)
    (FetchOutcome.response 200 (Body.object m c p))
    { reports := reports, result := Except.ok h }).state

/-! ## Sample inputs -/

/-- A chunk whose first choice carries the delta text `t`. -/
def textChunk (t : String) : Chunk :=
  { choices := [{ delta := some { content := some t } }] }

/-- A session with a system prompt and a ready engine, with `input` typed in the input field. -/
def sampleState (input : String) : State :=
  { MODEL_ID := some "model", CACHE_NAME := some "webllm/model", SYSTEM_PROMPT := some "Be brief.",
    engine := some { id := 1 },
    messages := [{ role := Role.system, content := some "Be brief." }],
    chatOutput := [], userInput := input, statusText := modelReadyStatus, trace := [] }

/-- Two user/assistant turns. -/
def sampleTurns : List (String × List Chunk) :=
  [("hi", [textChunk "Hel", textChunk "lo"]), ("bye", [textChunk "Bye"])]

/-- A session in which a failed turn, a cache clearing, a new engine and an unload follow a
successful turn. -/
def sampleActions : List Action :=
  [Action.initEngine { reports := ["50%"], result := Except.ok { id := 2 } },
   Action.chat "hi" (Completion.resolves [textChunk "Hel", textChunk "lo"] StreamEnd.done),
   Action.chat " " Completion.rejects,
   Action.chat "more" (Completion.resolves [textChunk "par"] StreamEnd.throws),
   Action.clearCache true (DeleteOutcome.returns true),
   Action.chat "again" Completion.rejects,
   Action.unload]

/-! ## Auxiliary lemmas -/

theorem foldl_append_init (l : List String) (a : String) :
    l.foldl (fun r s => r ++ s) a = a ++ l.foldl (fun r s => r ++ s) "" := by
  induction l generalizing a with
  | nil => simp
  | cons d ds ih =>
    simp only [List.foldl_cons]
    rw [ih (a ++ d), ih ("" ++ d)]
    simp [String.append_assoc]

theorem join_cons (d : String) (ds : List String) :
    String.join (d :: ds) = d ++ String.join ds := by
  simp only [String.join, List.foldl_cons]
  rw [foldl_append_init]
  simp

theorem join_nil : String.join [] = "" := rfl

theorem trimChars_eq_nil_iff (l : List Char) :
    trimChars l = [] ↔ ∀ c ∈ l, isJsWhiteSpace c = true := by
  unfold trimChars
  constructor
  · intro h
    rw [List.reverse_eq_nil_iff, List.dropWhile_eq_nil_iff] at h
    have h2 : l.dropWhile isJsWhiteSpace = [] := by
      cases hd : l.dropWhile isJsWhiteSpace with
      | nil => rfl
      | cons x xs =>
        exfalso
        have hx : isJsWhiteSpace x = true := h x (by simp [hd])
        have := List.head_dropWhile_not isJsWhiteSpace l (by simp [hd])
        simp [hd] at this
        simp [hx] at this
    exact List.dropWhile_eq_nil_iff.mp h2
  · intro h
    have : l.dropWhile isJsWhiteSpace = [] := List.dropWhile_eq_nil_iff.mpr h
    simp [this]

theorem jsTrim_eq_empty_iff (t : String) :
    jsTrim t = "" ↔ ∀ c ∈ t.data, isJsWhiteSpace c = true := by
  rw [← trimChars_eq_nil_iff]
  unfold jsTrim
  constructor
  · intro h
    have := congrArg String.data h
    simpa using this
  · intro h
    rw [h]


theorem setNodeText_setNodeText (l : List Node) (i : Nat) (a b : String) :
    setNodeText (setNodeText l i a) i b = setNodeText l i b := by
  induction l generalizing i with
  | nil => simp [setNodeText]
  | cons n ns ih =>
    cases i with
    | zero => simp [setNodeText]
    | succ j => simp [setNodeText, ih]

theorem setNodeText_append_length (l : List Node) (n : Node) (r : List Node) (t : String) :
    setNodeText (l ++ n :: r) l.length t = l ++ { n with textContent := t } :: r := by
  induction l with
  | nil => simp [setNodeText]
  | cons m ms ih => simp [setNodeText, ih]

/-- Consuming a stream of chunks on top of the text `acc` already shown. -/
theorem foldl_streamStep (ai : Nat) (chunks : List Chunk) (s : State) (acc : String) :
    chunks.foldl (streamStep ai) (setTextContent s ai acc, acc) =
      ({ s with
          chatOutput := setNodeText s.chatOutput ai
            (acc ++ String.join (chunks.map chunkContent)),
          trace := s.trace ++ (List.range (chunks.length + 1)).map (fun i =>
            Effect.setTextContent ai
              (acc ++ String.join ((chunks.take i).map chunkContent))) },
       acc ++ String.join (chunks.map chunkContent)) := by
  induction chunks generalizing s acc with
  | nil => simp [setTextContent, join_nil]
  | cons c cs ih =>
    simp only [List.foldl_cons]
    have hstep : streamStep ai (setTextContent s ai acc, acc) c =
        (setTextContent (setTextContent s ai acc) ai (acc ++ chunkContent c),
          acc ++ chunkContent c) := rfl
    rw [hstep, ih]
    simp only [setTextContent, setNodeText_setNodeText, List.map_cons, join_cons,
      String.append_assoc, List.length_cons]
    rw [List.range_succ_eq_map (cs.length + 1)]
    simp [join_nil, join_cons, Function.comp_def, String.append_assoc]


theorem jsTrim_ne_empty_of_nonblank (t : String)
    (h : ∃ c ∈ t.data, isJsWhiteSpace c = false) : jsTrim t ≠ "" := by
  intro he
  obtain ⟨c, hc, hw⟩ := h
  have := (jsTrim_eq_empty_iff t).mp he c hc
  simp [hw] at this

theorem userClass_eq : "message " ++ "user" ++ "-message" = "message user-message" := by decide

theorem aiClass_eq : "message " ++ "ai" ++ "-message" = "message ai-message" := by decide

theorem setNodeText_placeholder (l : List Node) (u n : Node) (t : String) :
    setNodeText (l ++ [u, n]) (l.length + 1) t = l ++ [u, { n with textContent := t }] := by
  have h := setNodeText_append_length (l ++ [u]) n [] t
  simpa using h

/-- A blank submission returns at once. -/
theorem handleChat_of_blank (s : State) (resp : Completion) (h : jsTrim s.userInput = "") :
    handleChat s resp = s := by
  simp [handleChat, h]

/-- A non-blank submission without an engine only shows the not-ready notice. -/
theorem handleChat_of_no_engine (s : State) (resp : Completion)
    (hne : jsTrim s.userInput ≠ "") (hengine : s.engine = none) :
    handleChat s resp =
      { s with
          chatOutput := s.chatOutput ++
            [{ className := "message ai-message", textContent := notReadyNotice }],
          trace := s.trace ++ [Effect.appendChild "message ai-message" notReadyNotice] } := by
  simp [handleChat, hne, hengine, appendMessage, aiClass_eq]

/-- A turn whose stream runs to the end. -/
theorem handleChat_of_done (s : State) (h : EngineHandle) (chunks : List Chunk)
    (hne : jsTrim s.userInput ≠ "") (hengine : s.engine = some h) :
    handleChat s (Completion.resolves chunks StreamEnd.done) =
      { s with
          userInput := "",
          messages := s.messages ++
            [{ role := Role.user, content := some (jsTrim s.userInput) },
             { role := Role.assistant,
               content := some (String.join (chunks.map chunkContent)) }],
          chatOutput := s.chatOutput ++
            [{ className := "message user-message", textContent := jsTrim s.userInput },
             { className := "message ai-message",
               textContent := String.join (chunks.map chunkContent) }],
          trace := s.trace ++
            [Effect.appendChild "message user-message" (jsTrim s.userInput),
             Effect.appendChild "message ai-message" "Thinking...",
             Effect.completionsCreate
               (s.messages ++ [{ role := Role.user, content := some (jsTrim s.userInput) }])
               true] ++
            (List.range (chunks.length + 1)).map (fun i =>
              Effect.setTextContent (s.chatOutput.length + 1)
                (String.join ((chunks.take i).map chunkContent))) } := by
  simp only [handleChat, hne, hengine, if_false, appendMessage, emit]
  rw [foldl_streamStep]
  simp [userClass_eq, aiClass_eq, setNodeText_placeholder]

/-- A turn whose completion request rejects. -/
theorem handleChat_of_rejects (s : State) (h : EngineHandle)
    (hne : jsTrim s.userInput ≠ "") (hengine : s.engine = some h) :
    handleChat s Completion.rejects =
      { s with
          userInput := "",
          messages := s.messages ++
            [{ role := Role.user, content := some (jsTrim s.userInput) }],
          chatOutput := s.chatOutput ++
            [{ className := "message user-message", textContent := jsTrim s.userInput },
             { className := "message ai-message", textContent := errorNotice }],
          trace := s.trace ++
            [Effect.appendChild "message user-message" (jsTrim s.userInput),
             Effect.appendChild "message ai-message" "Thinking...",
             Effect.completionsCreate
               (s.messages ++ [{ role := Role.user, content := some (jsTrim s.userInput) }])
               true,
             Effect.setTextContent (s.chatOutput.length + 1) errorNotice] } := by
  simp [handleChat, hne, hengine, appendMessage, emit, setTextContent, userClass_eq,
    aiClass_eq, setNodeText_placeholder]

/-- A turn whose stream throws after `chunks` have been consumed. -/
theorem handleChat_of_throws (s : State) (h : EngineHandle) (chunks : List Chunk)
    (hne : jsTrim s.userInput ≠ "") (hengine : s.engine = some h) :
    handleChat s (Completion.resolves chunks StreamEnd.throws) =
      { s with
          userInput := "",
          messages := s.messages ++
            [{ role := Role.user, content := some (jsTrim s.userInput) }],
          chatOutput := s.chatOutput ++
            [{ className := "message user-message", textContent := jsTrim s.userInput },
             { className := "message ai-message", textContent := errorNotice }],
          trace := s.trace ++
            [Effect.appendChild "message user-message" (jsTrim s.userInput),
             Effect.appendChild "message ai-message" "Thinking...",
             Effect.completionsCreate
               (s.messages ++ [{ role := Role.user, content := some (jsTrim s.userInput) }])
               true] ++
            (List.range (chunks.length + 1)).map (fun i =>
              Effect.setTextContent (s.chatOutput.length + 1)
                (String.join ((chunks.take i).map chunkContent))) ++
            [Effect.setTextContent (s.chatOutput.length + 1) errorNotice] } := by
  simp only [handleChat, hne, hengine, if_false, appendMessage, emit]
  rw [foldl_streamStep]
  simp [userClass_eq, aiClass_eq, setNodeText_placeholder, setTextContent,
    setNodeText_setNodeText]

/-! ## Chat turns -/

/-- C1. With an engine handle and a non-blank input, a completion that streams the chunks
`c1..cn` to the end makes `handleChat` show the user node and the placeholder, issue one
request over the history extended with the user Message, and then write to the placeholder
node exactly the texts `""`, `d1`, `d1 d2`, ..., `d1 .. dn` in that order (`di` the delta text
of `ci`); the history ends up as the prior history, the user Message carrying the trimmed
input, and one assistant Message carrying `d1 .. dn`, which is also the node's final text. -/
theorem handleChat_stream_success (s : State) (h : EngineHandle) (chunks : List Chunk)
    (hengine : s.engine = some h)
    (hinput : ∃ c ∈ s.userInput.data, isJsWhiteSpace c = false) :
    (handleChat s (Completion.resolves chunks StreamEnd.done)).trace =
        s.trace ++
          [Effect.appendChild "message user-message" (jsTrim s.userInput),
           Effect.appendChild "message ai-message" "Thinking...",
           Effect.completionsCreate
             (s.messages ++ [{ role := Role.user, content := some (jsTrim s.userInput) }])
             true] ++
          (List.range (chunks.length + 1)).map (fun i =>
            Effect.setTextContent (s.chatOutput.length + 1)
              (String.join ((chunks.take i).map chunkContent))) ∧
      (handleChat s (Completion.resolves chunks StreamEnd.done)).messages =
        s.messages ++
          [{ role := Role.user, content := some (jsTrim s.userInput) },
           { role := Role.assistant,
             content := some (String.join (chunks.map chunkContent)) }] ∧
      (handleChat s (Completion.resolves chunks StreamEnd.done)).chatOutput =
        s.chatOutput ++
          [{ className := "message user-message", textContent := jsTrim s.userInput },
           { className := "message ai-message",
             textContent := String.join (chunks.map chunkContent) }] := by
  rw [handleChat_of_done s h chunks (jsTrim_ne_empty_of_nonblank _ hinput) hengine]
  exact ⟨rfl, rfl, rfl⟩

/-- C1 at the chunks `"Hel"`, `"lo"`: the placeholder shows `""`, `"Hel"`, `"Hello"` and one
assistant Message `"Hello"` is recorded. -/
theorem handleChat_stream_success_witness :
    (sampleState " hi ").engine = some { id := 1 } ∧
      (∃ c ∈ (sampleState " hi ").userInput.data, isJsWhiteSpace c = false) ∧
      ((handleChat (sampleState " hi ")
          (Completion.resolves [textChunk "Hel", textChunk "lo"] StreamEnd.done)).trace =
        [Effect.appendChild "message user-message" "hi",
         Effect.appendChild "message ai-message" "Thinking...",
         Effect.completionsCreate
           [{ role := Role.system, content := some "Be brief." },
            { role := Role.user, content := some "hi" }] true,
         Effect.setTextContent 1 "",
         Effect.setTextContent 1 "Hel",
         Effect.setTextContent 1 "Hello"] ∧
       (handleChat (sampleState " hi ")
          (Completion.resolves [textChunk "Hel", textChunk "lo"] StreamEnd.done)).messages =
        [{ role := Role.system, content := some "Be brief." },
         { role := Role.user, content := some "hi" },
         { role := Role.assistant, content := some "Hello" }] ∧
       (handleChat (sampleState " hi ")
          (Completion.resolves [textChunk "Hel", textChunk "lo"] StreamEnd.done)).chatOutput =
        [{ className := "message user-message", textContent := "hi" },
         { className := "message ai-message", textContent := "Hello" }]) :=
  ⟨rfl, ⟨'h', by decide, by decide⟩,
    handleChat_stream_success (sampleState " hi ") { id := 1 }
      [textChunk "Hel", textChunk "lo"] rfl ⟨'h', by decide, by decide⟩⟩

/-- C2. With an engine handle and a non-blank input, when the completion request rejects or
the stream throws after any number of chunks, the chat log ends with the user node and the
placeholder node showing the fixed error notice, and the history is the prior history followed
by the user Message of this turn only: no assistant Message, no trace of the accumulated text. -/
theorem handleChat_failure (s : State) (h : EngineHandle) (resp : Completion)
    (hengine : s.engine = some h)
    (hinput : ∃ c ∈ s.userInput.data, isJsWhiteSpace c = false)
    (hfail : resp = Completion.rejects ∨
      ∃ chunks, resp = Completion.resolves chunks StreamEnd.throws) :
    (handleChat s resp).chatOutput =
        s.chatOutput ++
          [{ className := "message user-message", textContent := jsTrim s.userInput },
           { className := "message ai-message", textContent := "Error generating response." }] ∧
      (handleChat s resp).messages =
        s.messages ++ [{ role := Role.user, content := some (jsTrim s.userInput) }] := by
  have hne := jsTrim_ne_empty_of_nonblank _ hinput
  rcases hfail with hr | ⟨chunks, hr⟩
  · rw [hr, handleChat_of_rejects s h hne hengine]
    exact ⟨rfl, rfl⟩
  · rw [hr, handleChat_of_throws s h chunks hne hengine]
    exact ⟨rfl, rfl⟩

/-- C2 at a stream that throws after the chunk `"Hel"`, and at a rejected request. -/
theorem handleChat_failure_witness :
    ((handleChat (sampleState "hi")
          (Completion.resolves [textChunk "Hel"] StreamEnd.throws)).chatOutput =
        [{ className := "message user-message", textContent := "hi" },
         { className := "message ai-message", textContent := "Error generating response." }] ∧
      (handleChat (sampleState "hi")
          (Completion.resolves [textChunk "Hel"] StreamEnd.throws)).messages =
        [{ role := Role.system, content := some "Be brief." },
         { role := Role.user, content := some "hi" }]) ∧
    ((handleChat (sampleState "hi") Completion.rejects).chatOutput =
        [{ className := "message user-message", textContent := "hi" },
         { className := "message ai-message", textContent := "Error generating response." }] ∧
      (handleChat (sampleState "hi") Completion.rejects).messages =
        [{ role := Role.system, content := some "Be brief." },
         { role := Role.user, content := some "hi" }]) :=
  ⟨handleChat_failure (sampleState "hi") { id := 1 }
      (Completion.resolves [textChunk "Hel"] StreamEnd.throws) rfl
      ⟨'h', by decide, by decide⟩ (Or.inr ⟨[textChunk "Hel"], rfl⟩),
   handleChat_failure (sampleState "hi") { id := 1 } Completion.rejects rfl
      ⟨'h', by decide, by decide⟩ (Or.inl rfl)⟩

/-- C3. When the input field is empty or holds only white space, `handleChat` returns the
state it was given, whatever the engine handle is: history, chat log and input field are the
same, and the trace is the same, so no node was appended and no completion was requested. -/
theorem handleChat_blank_noop (s : State) (resp : Completion)
    (hblank : ∀ c ∈ s.userInput.data, isJsWhiteSpace c = true) :
    handleChat s resp = s ∧
      (handleChat s resp).messages = s.messages ∧
      (handleChat s resp).chatOutput = s.chatOutput ∧
      (handleChat s resp).userInput = s.userInput ∧
      (handleChat s resp).trace = s.trace := by
  have h := handleChat_of_blank s resp ((jsTrim_eq_empty_iff _).mpr hblank)
  rw [h]
  exact ⟨rfl, rfl, rfl, rfl, rfl⟩

/-- C3 at the input `" \t\n"` with an engine, and at the empty input without one. -/
theorem handleChat_blank_noop_witness :
    handleChat (sampleState " \t\n") (Completion.resolves [textChunk "Hel"] StreamEnd.done) =
        sampleState " \t\n" ∧
      handleChat { sampleState "" with engine := none } Completion.rejects =
        { sampleState "" with engine := none } :=
  ⟨(handleChat_blank_noop (sampleState " \t\n")
      (Completion.resolves [textChunk "Hel"] StreamEnd.done) (by decide)).1,
   (handleChat_blank_noop { sampleState "" with engine := none } Completion.rejects
      (by decide)).1⟩

/-- C4. A non-blank submission made while the engine handle is absent appends exactly one
node, of class `ai`, carrying the not-ready notice, and changes nothing else: the history and
the input field are as before and the only call recorded is that `appendChild`. -/
theorem handleChat_not_ready (s : State) (resp : Completion)
    (hengine : s.engine = none)
    (hinput : ∃ c ∈ s.userInput.data, isJsWhiteSpace c = false) :
    handleChat s resp =
      { s with
          chatOutput := s.chatOutput ++
            [{ className := "message ai-message",
               textContent := "Model not ready. Please wait for the required ~880MB download and initialization to complete." }],
          trace := s.trace ++
            [Effect.appendChild "message ai-message"
               "Model not ready. Please wait for the required ~880MB download and initialization to complete."] } ∧
      (handleChat s resp).messages = s.messages := by
  rw [handleChat_of_no_engine s resp (jsTrim_ne_empty_of_nonblank _ hinput) hengine]
  exact ⟨rfl, rfl⟩

/-- C4 at the input `"hi"`. -/
theorem handleChat_not_ready_witness :
    (handleChat { sampleState "hi" with engine := none } Completion.rejects).chatOutput =
        [{ className := "message ai-message",
           textContent := "Model not ready. Please wait for the required ~880MB download and initialization to complete." }] ∧
      (handleChat { sampleState "hi" with engine := none } Completion.rejects).messages =
        [{ role := Role.system, content := some "Be brief." }] :=
  ⟨congrArg State.chatOutput
      (handleChat_not_ready { sampleState "hi" with engine := none } Completion.rejects rfl
        ⟨'h', by decide, by decide⟩).1,
   (handleChat_not_ready { sampleState "hi" with engine := none } Completion.rejects rfl
        ⟨'h', by decide, by decide⟩).2⟩

/-! ## The cache controller -/

/-- C5. After the clear-cache action the engine handle is `none` if the prompt was confirmed,
the cache name is a non-empty string and the deletion returned `true`, and is the handle it
was otherwise (prompt declined, name unset or empty, deletion returning `false` or throwing);
so it is absent afterwards exactly when it was absent before or the deletion succeeded. The
history is the same in every case. -/
theorem clearCacheClick_engine (s : State) (confirmed : Bool) (del : DeleteOutcome) :
    (clearCacheClick s confirmed del).engine =
        (if confirmed = true ∧ (∃ name, s.CACHE_NAME = some name ∧ name ≠ "") ∧
            del = DeleteOutcome.returns true
          then none else s.engine) ∧
      ((clearCacheClick s confirmed del).engine = none ↔
        (s.engine = none ∨
          (confirmed = true ∧ (∃ name, s.CACHE_NAME = some name ∧ name ≠ "") ∧
            del = DeleteOutcome.returns true))) ∧
      (clearCacheClick s confirmed del).messages = s.messages := by
  cases confirmed
  · simp [clearCacheClick, emit]
  · cases hname : s.CACHE_NAME with
    | none => simp [clearCacheClick, emit, setStatus, hname]
    | some name =>
      by_cases hempty : name = ""
      · simp [clearCacheClick, emit, setStatus, hname, hempty]
      · cases del with
        | throws => simp [clearCacheClick, emit, setStatus, hname, hempty]
        | returns found =>
          cases found <;> simp [clearCacheClick, emit, setStatus, hname, hempty]

/-- C6. With the cache name unset (`undefined` or the empty string), a confirmed clear-cache
action records the prompt and two status writes and nothing else, so `caches.delete` is not
called (a deletion found in the trace afterwards was already there before); the status ends as
the not-found message, which is not the error message, and the engine handle is the one it
was. -/
theorem clearCacheClick_unset_name (s : State) (del : DeleteOutcome)
    (hname : s.CACHE_NAME = none ∨ s.CACHE_NAME = some "") :
    (clearCacheClick s true del).trace =
        s.trace ++
          [Effect.confirm confirmQuestion,
           Effect.setStatus "Clearing model cache...",
           Effect.setStatus
             "Model cache not found or could not be cleared (check if CACHE_NAME is set)."] ∧
      (∀ name, Effect.cachesDelete name ∈ (clearCacheClick s true del).trace →
        Effect.cachesDelete name ∈ s.trace) ∧
      (clearCacheClick s true del).statusText =
        "Model cache not found or could not be cleared (check if CACHE_NAME is set)." ∧
      (clearCacheClick s true del).statusText ≠ cacheErrorStatus ∧
      (clearCacheClick s true del).engine = s.engine := by
  have hne : cacheNotFoundStatus ≠ cacheErrorStatus := by decide
  have htrace : (clearCacheClick s true del).trace =
      s.trace ++
        [Effect.confirm confirmQuestion,
         Effect.setStatus "Clearing model cache...",
         Effect.setStatus cacheNotFoundStatus] := by
    rcases hname with hname | hname <;> simp [clearCacheClick, emit, setStatus, hname]
  have hstatus : (clearCacheClick s true del).statusText = cacheNotFoundStatus := by
    rcases hname with hname | hname <;> simp [clearCacheClick, emit, setStatus, hname]
  have hengine : (clearCacheClick s true del).engine = s.engine := by
    rcases hname with hname | hname <;> simp [clearCacheClick, emit, setStatus, hname]
  refine ⟨htrace, ?_, hstatus, ?_, hengine⟩
  · intro name hmem
    rw [htrace] at hmem
    rcases List.mem_append.mp hmem with h | h
    · exact h
    · simp at h
  · rw [hstatus]
    exact hne

/-- C6 at a session whose cache name is the empty string and whose deletion would succeed. -/
theorem clearCacheClick_unset_name_witness :
    (clearCacheClick { sampleState "" with CACHE_NAME := some "" } true
        (DeleteOutcome.returns true)).statusText = cacheNotFoundStatus ∧
      (clearCacheClick { sampleState "" with CACHE_NAME := some "" } true
        (DeleteOutcome.returns true)).engine = some { id := 1 } :=
  ⟨(clearCacheClick_unset_name { sampleState "" with CACHE_NAME := some "" }
      (DeleteOutcome.returns true) (Or.inr rfl)).2.2.1,
   (clearCacheClick_unset_name { sampleState "" with CACHE_NAME := some "" }
      (DeleteOutcome.returns true) (Or.inr rfl)).2.2.2.2⟩

/-! ## Start-up -/

/-- C7. A response with a success status whose body parses to an object makes `loadConfig`
store the three fields as they are and replace the history, whatever it held, by the single
system Message carrying `SYSTEM_PROMPT`, without raising; a response with a non-success
status, or one whose body does not parse, makes it raise and leaves the three fields and the
history as they were. -/
theorem loadConfig_fields (s : State) (status : Nat) :
    (responseOk status = true → ∀ m c p : Option String,
        (loadConfig s (FetchOutcome.response status (Body.object m c p))).raised = none ∧
        (loadConfig s (FetchOutcome.response status (Body.object m c p))).state.MODEL_ID = m ∧
        (loadConfig s (FetchOutcome.response status (Body.object m c p))).state.CACHE_NAME = c ∧
        (loadConfig s (FetchOutcome.response status (Body.object m c p))).state.SYSTEM_PROMPT = p ∧
        (loadConfig s (FetchOutcome.response status (Body.object m c p))).state.messages =
          [{ role := Role.system, content := p }]) ∧
      (∀ f : FetchOutcome,
        ((∃ body, f = FetchOutcome.response status body ∧ responseOk status = false) ∨
          (∃ e, f = FetchOutcome.response status (Body.parseFailure e))) →
        (loadConfig s f).raised ≠ none ∧
        (loadConfig s f).state.MODEL_ID = s.MODEL_ID ∧
        (loadConfig s f).state.CACHE_NAME = s.CACHE_NAME ∧
        (loadConfig s f).state.SYSTEM_PROMPT = s.SYSTEM_PROMPT ∧
        (loadConfig s f).state.messages = s.messages) := by
  constructor
  · intro hok m c p
    simp [loadConfig, hok, setStatus, emit]
  · intro f hf
    rcases hf with ⟨body, rfl, hbad⟩ | ⟨e, rfl⟩
    · simp [loadConfig, hbad, loadConfigCatch, setStatus, emit]
    · cases hok : responseOk status <;>
        simp [loadConfig, hok, loadConfigCatch, setStatus, emit]

/-- C7 at a 200 response carrying three fields, over a history of two entries, and at a 404
response. -/
theorem loadConfig_fields_witness :
    (loadConfig (sampleState "")
        (FetchOutcome.response 200
          (Body.object (some "m") (some "c") (some "You are terse.")))).state.messages =
        [{ role := Role.system, content := some "You are terse." }] ∧
      (loadConfig (sampleState "")
        (FetchOutcome.response 404 Body.null)).state.messages =
        [{ role := Role.system, content := some "Be brief." }] ∧
      (loadConfig (sampleState "") (FetchOutcome.response 404 Body.null)).raised ≠ none :=
  ⟨((loadConfig_fields (sampleState "") 200).1 (by decide)
      (some "m") (some "c") (some "You are terse.")).2.2.2.2,
   ((loadConfig_fields (sampleState "") 404).2 (FetchOutcome.response 404 Body.null)
      (Or.inl ⟨Body.null, rfl, by decide⟩)).2.2.2.2,
   ((loadConfig_fields (sampleState "") 404).2 (FetchOutcome.response 404 Body.null)
      (Or.inl ⟨Body.null, rfl, by decide⟩)).1⟩

theorem foldl_setStatus_fields (reports : List String) (s : State) :
    (reports.foldl setStatus s).engine = s.engine ∧
      (reports.foldl setStatus s).messages = s.messages ∧
      (reports.foldl setStatus s).MODEL_ID = s.MODEL_ID ∧
      (reports.foldl setStatus s).CACHE_NAME = s.CACHE_NAME ∧
      (reports.foldl setStatus s).chatOutput = s.chatOutput := by
  induction reports generalizing s with
  | nil => simp
  | cons r rs ih =>
    simp only [List.foldl_cons]
    obtain ⟨h1, h2, h3, h4, h5⟩ := ih (setStatus s r)
    exact ⟨h1, h2, h3, h4, h5⟩

theorem loadConfig_engine (s : State) (f : FetchOutcome) :
    (loadConfig s f).state.engine = s.engine := by
  unfold loadConfig
  cases f with
  | rejects e => simp [loadConfigCatch, setStatus, emit]
  | response status body =>
    cases hok : responseOk status
    · simp [hok, loadConfigCatch, setStatus, emit]
    · cases body <;> simp [hok, loadConfigCatch, setStatus, emit]

theorem loadConfig_trace_of_raised (s : State) (f : FetchOutcome)
    (h : (loadConfig s f).raised ≠ none) :
    (loadConfig s f).state.trace =
      s.trace ++ [Effect.setStatus "Loading configuration...", Effect.fetch "./config.json",
        Effect.setStatus "Error loading configuration. See console for details."] := by
  unfold loadConfig at h ⊢
  cases f with
  | rejects e => simp [loadConfigCatch, setStatus, emit]
  | response status body =>
    cases hok : responseOk status
    · simp [hok, loadConfigCatch, setStatus, emit]
    · cases body <;> simp_all [loadConfigCatch, setStatus, emit]

theorem initializeWebLLM_engine_of_raised (s : State) (o : InitOutcome)
    (h : (initializeWebLLM s o).raised ≠ none) :
    (initializeWebLLM s o).state.engine = s.engine := by
  unfold initializeWebLLM at h ⊢
  cases hres : o.result with
  | ok e => simp [hres] at h
  | error e =>
    simp only [setStatus, emit]
    exact (foldl_setStatus_fields o.reports _).1

theorem initializeWebLLM_of_ok (s : State) (o : InitOutcome)
    (h : (initializeWebLLM s o).raised = none) :
    (initializeWebLLM s o).state.engine.isSome = true ∧
      (initializeWebLLM s o).state.statusText = modelReadyStatus := by
  unfold initializeWebLLM at h ⊢
  cases hres : o.result with
  | ok e => simp [setStatus]
  | error e => simp [hres] at h

/-- What `initApp` leaves behind when started without an engine handle and with an empty trace. -/
theorem initApp_from_empty (s : State) (f : FetchOutcome) (o : InitOutcome)
    (h0 : s.engine = none) (ht0 : s.trace = []) :
    (initApp s f o).raised = none ∧
      ((loadConfig s f).raised ≠ none →
        ∀ m b, Effect.createEngine m b ∉ (initApp s f o).state.trace) ∧
      (((loadConfig s f).raised ≠ none ∨
          (initializeWebLLM (loadConfig s f).state o).raised ≠ none) →
        (initApp s f o).state.engine = none ∧
        (initApp s f o).state.statusText = appFailedStatus) ∧
      (((loadConfig s f).raised = none ∧
          (initializeWebLLM (loadConfig s f).state o).raised = none) →
        (initApp s f o).state.engine.isSome = true ∧
        (initApp s f o).state.statusText = modelReadyStatus) := by
  have hengine := loadConfig_engine s f
  rw [h0] at hengine
  cases hload : (loadConfig s f).raised with
  | some e =>
    have htrace := loadConfig_trace_of_raised s f (by simp [hload])
    rw [ht0] at htrace
    refine ⟨by simp [initApp, hload], ?_, ?_, ?_⟩
    · intro _ m b
      simp [initApp, hload, setStatus, htrace]
    · intro _
      simp [initApp, hload, setStatus, hengine]
    · intro h
      simp at h
  | none =>
    cases hinit : (initializeWebLLM (loadConfig s f).state o).raised with
    | some e =>
      have he := initializeWebLLM_engine_of_raised (loadConfig s f).state o (by simp [hinit])
      refine ⟨by simp [initApp, hload, hinit], ?_, ?_, ?_⟩
      · intro h
        simp at h
      · intro _
        simp [initApp, hload, hinit, setStatus, he, hengine]
      · intro h
        simp at h
    | none =>
      have hok := initializeWebLLM_of_ok (loadConfig s f).state o hinit
      refine ⟨by simp [initApp, hload, hinit], ?_, ?_, ?_⟩
      · intro h
        simp at h
      · intro h
        simp at h
      · intro _
        simpa [initApp, hload, hinit] using hok

/-- C9. The one run of `initApp`, from the module's initial state: it never raises; when
`loadConfig` raises, no `CreateMLCEngine` call is recorded; when `loadConfig` or
`initializeWebLLM` raises, the engine handle is absent afterwards and the status ends as the
application-failed message; when neither raises, the engine handle is present and the status
ends as the model-ready message. -/
theorem initApp_outcome (chatOutput : List Node) (userInput statusText : String)
    (f : FetchOutcome) (o : InitOutcome) :
    (initApp (moduleInit chatOutput userInput statusText) f o).raised = none ∧
      ((loadConfig (moduleInit chatOutput userInput statusText) f).raised ≠ none →
        ∀ m b, Effect.createEngine m b ∉
          (initApp (moduleInit chatOutput userInput statusText) f o).state.trace) ∧
      (((loadConfig (moduleInit chatOutput userInput statusText) f).raised ≠ none ∨
          (initializeWebLLM
            (loadConfig (moduleInit chatOutput userInput statusText) f).state o).raised ≠ none) →
        (initApp (moduleInit chatOutput userInput statusText) f o).state.engine = none ∧
        (initApp (moduleInit chatOutput userInput statusText) f o).state.statusText =
          "Application failed to initialize. See console for details.") ∧
      (((loadConfig (moduleInit chatOutput userInput statusText) f).raised = none ∧
          (initializeWebLLM
            (loadConfig (moduleInit chatOutput userInput statusText) f).state o).raised = none) →
        (initApp (moduleInit chatOutput userInput statusText) f o).state.engine.isSome = true ∧
        (initApp (moduleInit chatOutput userInput statusText) f o).state.statusText =
          "Model ready! Ask me anything...") :=
  initApp_from_empty (moduleInit chatOutput userInput statusText) f o rfl rfl

/-- C9 at a 404 configuration response, and at a good configuration followed by a failing
engine creation. -/
theorem initApp_outcome_witness :
    ((initApp (moduleInit [] "" "")
        (FetchOutcome.response 404 Body.null)
        { reports := [], result := Except.ok { id := 1 } }).state.engine = none ∧
      (initApp (moduleInit [] "" "")
        (FetchOutcome.response 404 Body.null)
        { reports := [], result := Except.ok { id := 1 } }).state.statusText =
        "Application failed to initialize. See console for details.") ∧
    ((initApp (moduleInit [] "" "")
        (FetchOutcome.response 200 (Body.object (some "m") (some "c") (some "p")))
        { reports := ["10%"], result := Except.error JsError.typeError }).state.engine = none ∧
      (initApp (moduleInit [] "" "")
        (FetchOutcome.response 200 (Body.object (some "m") (some "c") (some "p")))
        { reports := ["10%"], result := Except.error JsError.typeError }).state.statusText =
        "Application failed to initialize. See console for details.") ∧
    ((initApp (moduleInit [] "" "")
        (FetchOutcome.response 200 (Body.object (some "m") (some "c") (some "p")))
        { reports := ["10%"], result := Except.ok { id := 1 } }).state.engine.isSome = true ∧
      (initApp (moduleInit [] "" "")
        (FetchOutcome.response 200 (Body.object (some "m") (some "c") (some "p")))
        { reports := ["10%"], result := Except.ok { id := 1 } }).state.statusText =
        "Model ready! Ask me anything...") :=
  ⟨(initApp_outcome [] "" "" (FetchOutcome.response 404 Body.null)
      { reports := [], result := Except.ok { id := 1 } }).2.2.1 (Or.inl (by decide)),
   (initApp_outcome [] "" ""
      (FetchOutcome.response 200 (Body.object (some "m") (some "c") (some "p")))
      { reports := ["10%"], result := Except.error JsError.typeError }).2.2.1
      (Or.inr (by decide)),
   (initApp_outcome [] "" ""
      (FetchOutcome.response 200 (Body.object (some "m") (some "c") (some "p")))
      { reports := ["10%"], result := Except.ok { id := 1 } }).2.2.2 ⟨by decide, by decide⟩⟩

/-! ## Sequences of turns -/

/-- A successful turn appends two history entries and the two nodes that show them. -/
theorem turn_eq (s : State) (h : EngineHandle) (t : String × List Chunk)
    (hengine : s.engine = some h) (hne : jsTrim t.1 ≠ "") :
    turn s t =
      { s with
          userInput := "",
          messages := s.messages ++
            [{ role := Role.user, content := some (jsTrim t.1) },
             { role := Role.assistant, content := some (String.join (t.2.map chunkContent)) }],
          chatOutput := s.chatOutput ++
            [{ className := "message user-message", textContent := jsTrim t.1 },
             { className := "message ai-message",
               textContent := String.join (t.2.map chunkContent) }],
          trace := s.trace ++
            [Effect.appendChild "message user-message" (jsTrim t.1),
             Effect.appendChild "message ai-message" "Thinking...",
             Effect.completionsCreate
               (s.messages ++ [{ role := Role.user, content := some (jsTrim t.1) }]) true] ++
            (List.range (t.2.length + 1)).map (fun i =>
              Effect.setTextContent (s.chatOutput.length + 1)
                (String.join ((t.2.take i).map chunkContent))) } := by
  unfold turn
  rw [handleChat_of_done { s with userInput := t.1 } h t.2 hne hengine]

/-- Over a run of successful turns the nodes shown stay in step with the history entries
that follow the first one. -/
theorem runTurns_sync (h : EngineHandle) (sys : Message) (turns : List (String × List Chunk)) :
    ∀ (s : State) (rest : List Message), s.engine = some h → s.messages = sys :: rest →
      rest.map (fun x => x.content) = s.chatOutput.map (fun n => some n.textContent) →
      (∀ t ∈ turns, ∃ c ∈ t.1.data, isJsWhiteSpace c = false) →
      ∃ rest', (runTurns s turns).messages = sys :: rest' ∧
        rest'.map (fun x => x.content) =
          (runTurns s turns).chatOutput.map (fun n => some n.textContent) ∧
        rest'.length = rest.length + 2 * turns.length := by
  induction turns with
  | nil =>
    intro s rest _ hm hsync _
    exact ⟨rest, by simpa [runTurns] using hm, by simpa [runTurns] using hsync, by simp⟩
  | cons t ts ih =>
    intro s rest he hm hsync hnb
    have hne : jsTrim t.1 ≠ "" := jsTrim_ne_empty_of_nonblank _ (hnb t (by simp))
    have hturn := turn_eq s h t he hne
    obtain ⟨rest', h1, h2, h3⟩ := ih (turn s t)
      (rest ++ [{ role := Role.user, content := some (jsTrim t.1) },
        { role := Role.assistant, content := some (String.join (t.2.map chunkContent)) }])
      (by rw [hturn]; exact he)
      (by rw [hturn]; simp [hm])
      (by rw [hturn]; simp [hsync])
      (fun u hu => hnb u (by simp [hu]))
    refine ⟨rest', by simpa [runTurns] using h1, by simpa [runTurns] using h2, ?_⟩
    rw [h3]
    simp
    omega

theorem freshSession_fields (m c p : Option String) (reports : List String) (h : EngineHandle)
    (userInput statusText : String) :
    (freshSession m c p reports h userInput statusText).engine = some h ∧
      (freshSession m c p reports h userInput statusText).messages =
        [{ role := Role.system, content := p }] ∧
      (freshSession m c p reports h userInput statusText).chatOutput = [] := by
  have hok : responseOk 200 = true := by decide
  simp only [freshSession, initApp, loadConfig, hok, if_true, initializeWebLLM]
  refine ⟨by simp [setStatus], ?_, ?_⟩
  · simp only [setStatus]
    rw [(foldl_setStatus_fields reports _).2.1]
    simp [emit, moduleInit]
  · simp only [setStatus]
    rw [(foldl_setStatus_fields reports _).2.2.2.2]
    simp [emit, moduleInit]

/-- C8, as the code has it. From a fresh session (configuration loaded, engine present,
empty chat log), `N` turns with non-blank inputs and completed streams leave exactly `2 * N`
nodes in the chat log and `2 * N` history entries after the system Message, which is still
first; the texts of the nodes are, in order, the contents of those `2 * N` entries, so the
system Message is stored and not shown. -/
theorem runTurns_counts (m c p : Option String) (reports : List String) (h : EngineHandle)
    (userInput statusText : String) (turns : List (String × List Chunk))
    (hnonblank : ∀ t ∈ turns, ∃ ch ∈ t.1.data, isJsWhiteSpace ch = false) :
    (runTurns (freshSession m c p reports h userInput statusText) turns).chatOutput.length =
        2 * turns.length ∧
      (runTurns (freshSession m c p reports h userInput statusText) turns).messages.length =
        1 + 2 * turns.length ∧
      (runTurns (freshSession m c p reports h userInput statusText) turns).messages.head? =
        some { role := Role.system, content := p } ∧
      ((runTurns (freshSession m c p reports h userInput statusText) turns).messages.drop 1).map
          (fun x => x.content) =
        (runTurns (freshSession m c p reports h userInput statusText) turns).chatOutput.map
          (fun n => some n.textContent) := by
  obtain ⟨he, hm, hc⟩ := freshSession_fields m c p reports h userInput statusText
  obtain ⟨rest', h1, h2, h3⟩ := runTurns_sync h { role := Role.system, content := p } turns
    (freshSession m c p reports h userInput statusText) [] he hm (by simp [hc]) hnonblank
  have hlen := congrArg List.length h2
  simp only [List.length_map] at hlen
  refine ⟨?_, ?_, ?_, ?_⟩
  · rw [← hlen, h3]; simp
  · rw [h1]; simp [h3]; omega
  · rw [h1]; rfl
  · rw [h1]; simpa using h2

/-- C8 at two turns: four nodes, four entries after the system Message. -/
theorem runTurns_counts_witness :
    (runTurns (freshSession (some "m") (some "c") (some "p") ["50%"] { id := 1 } "" "")
        sampleTurns).chatOutput.length = 4 ∧
      (runTurns (freshSession (some "m") (some "c") (some "p") ["50%"] { id := 1 } "" "")
        sampleTurns).messages.length = 5 :=
  ⟨(runTurns_counts (some "m") (some "c") (some "p") ["50%"] { id := 1 } "" "" sampleTurns
      (by decide)).1,
   (runTurns_counts (some "m") (some "c") (some "p") ["50%"] { id := 1 } "" "" sampleTurns
      (by decide)).2.1⟩

/-- C8 as stated fails: after the two turns of `sampleTurns`, both with non-blank input and a
completed stream, the chat log has 4 nodes and the history 4 entries after the system Message,
not `2 + 1`; and after no turn at all the chat log is empty, not of length `0 + 1`. -/
theorem runTurns_counts_counterexample :
    (∀ t ∈ sampleTurns, ∃ ch ∈ t.1.data, isJsWhiteSpace ch = false) ∧
      (runTurns (freshSession (some "m") (some "c") (some "p") ["50%"] { id := 1 } "" "")
        sampleTurns).chatOutput.length ≠ sampleTurns.length + 1 ∧
      (runTurns (freshSession (some "m") (some "c") (some "p") ["50%"] { id := 1 } "" "")
        sampleTurns).messages.length ≠ 1 + (sampleTurns.length + 1) ∧
      (runTurns (freshSession (some "m") (some "c") (some "p") ["50%"] { id := 1 } "" "")
        []).chatOutput.length ≠ 0 + 1 := by
  decide

/-! ## The history is append-only -/

theorem clearCacheClick_messages (s : State) (confirmed : Bool) (del : DeleteOutcome) :
    (clearCacheClick s confirmed del).messages = s.messages := by
  cases confirmed
  · simp [clearCacheClick, emit]
  · cases hname : s.CACHE_NAME with
    | none => simp [clearCacheClick, emit, setStatus, hname]
    | some name =>
      by_cases hempty : name = ""
      · simp [clearCacheClick, emit, setStatus, hname, hempty]
      · cases del with
        | throws => simp [clearCacheClick, emit, setStatus, hname, hempty]
        | returns found =>
          cases found <;> simp [clearCacheClick, emit, setStatus, hname, hempty]

theorem initializeWebLLM_messages (s : State) (o : InitOutcome) :
    (initializeWebLLM s o).state.messages = s.messages := by
  unfold initializeWebLLM
  cases o.result with
  | ok e =>
    simp only [setStatus, emit]
    exact (foldl_setStatus_fields o.reports _).2.1
  | error e =>
    simp only [setStatus, emit]
    exact (foldl_setStatus_fields o.reports _).2.1

theorem onbeforeunload_messages (s : State) : (onbeforeunload s).messages = s.messages := by
  unfold onbeforeunload
  cases s.CACHE_NAME with
  | none => rfl
  | some name => by_cases hempty : name = "" <;> simp [hempty, emit]

/-- Whatever the input, the engine and the completion do, `handleChat` only appends to the
history: nothing, the user Message, or the user Message and the assistant Message. -/
theorem handleChat_messages (s : State) (resp : Completion) :
    ∃ added, (handleChat s resp).messages = s.messages ++ added ∧ added.length ≤ 2 ∧
      ∀ x ∈ added, x.role = Role.user ∨ x.role = Role.assistant := by
  by_cases hblank : jsTrim s.userInput = ""
  · exact ⟨[], by simp [handleChat_of_blank s resp hblank], by simp, by simp⟩
  · cases hengine : s.engine with
    | none =>
      exact ⟨[], by simp [handleChat_of_no_engine s resp hblank hengine], by simp, by simp⟩
    | some h =>
      cases resp with
      | rejects =>
        exact ⟨[{ role := Role.user, content := some (jsTrim s.userInput) }],
          by rw [handleChat_of_rejects s h hblank hengine], by simp, by simp⟩
      | resolves chunks ending =>
        cases ending with
        | done =>
          exact ⟨[{ role := Role.user, content := some (jsTrim s.userInput) },
              { role := Role.assistant,
                content := some (String.join (chunks.map chunkContent)) }],
            by rw [handleChat_of_done s h chunks hblank hengine], by simp, by simp⟩
        | throws =>
          exact ⟨[{ role := Role.user, content := some (jsTrim s.userInput) }],
            by rw [handleChat_of_throws s h chunks hblank hengine], by simp, by simp⟩

/-- Every action appends at most two user/assistant entries to the history. -/
theorem step_messages (s : State) (a : Action) :
    ∃ added, (step s a).messages = s.messages ++ added ∧ added.length ≤ 2 ∧
      ∀ x ∈ added, x.role = Role.user ∨ x.role = Role.assistant := by
  cases a with
  | chat input resp => exact handleChat_messages { s with userInput := input } resp
  | clearCache confirmed del =>
    exact ⟨[], by simp [step, clearCacheClick_messages], by simp, by simp⟩
  | initEngine o => exact ⟨[], by simp [step, initializeWebLLM_messages], by simp, by simp⟩
  | unload => exact ⟨[], by simp [step, onbeforeunload_messages], by simp, by simp⟩

/-- A run of actions appends user/assistant entries to the history it starts from. -/
theorem run_messages (acts : List Action) :
    ∀ s : State, ∃ added, (run s acts).messages = s.messages ++ added ∧
      ∀ x ∈ added, x.role = Role.user ∨ x.role = Role.assistant := by
  induction acts with
  | nil => intro s; exact ⟨[], by simp [run], by simp⟩
  | cons a as ih =>
    intro s
    obtain ⟨added1, h1, _, hr1⟩ := step_messages s a
    obtain ⟨added2, h2, hr2⟩ := ih (step s a)
    refine ⟨added1 ++ added2, ?_, ?_⟩
    · have : run s (a :: as) = run (step s a) as := rfl
      rw [this, h2, h1, List.append_assoc]
    · intro x hx
      rcases List.mem_append.mp hx with hx | hx
      · exact hr1 x hx
      · exact hr2 x hx

theorem loadConfig_messages_of_object (s : State) (status : Nat) (m c p : Option String)
    (hok : responseOk status = true) :
    (loadConfig s (FetchOutcome.response status (Body.object m c p))).state.messages =
      [{ role := Role.system, content := p }] := by
  simp [loadConfig, hok, setStatus, emit]

/-- C10. In every state reached from a successful `loadConfig` by a finite sequence of
submissions (any input, any completion outcome), clear-cache actions (any prompt and deletion
outcome), engine initialisations and unload-hook runs, any further action leaves the history
it finds as a prefix of the new one, appends at most two entries, and appends only user or
assistant entries; and the history is the configured system Message followed by user and
assistant entries only. -/
theorem history_append_only (s0 : State) (status : Nat) (m c p : Option String)
    (hok : responseOk status = true) (acts : List Action) :
    (∀ a : Action, ∃ added,
        (step (run (loadConfig s0
            (FetchOutcome.response status (Body.object m c p))).state acts) a).messages =
          (run (loadConfig s0
            (FetchOutcome.response status (Body.object m c p))).state acts).messages ++ added ∧
        added.length ≤ 2 ∧
        ∀ x ∈ added, x.role = Role.user ∨ x.role = Role.assistant) ∧
      (∃ rest,
        (run (loadConfig s0
            (FetchOutcome.response status (Body.object m c p))).state acts).messages =
          { role := Role.system, content := p } :: rest ∧
        ∀ x ∈ rest, x.role = Role.user ∨ x.role = Role.assistant) := by
  refine ⟨fun a => step_messages _ a, ?_⟩
  obtain ⟨added, h1, h2⟩ := run_messages acts
    (loadConfig s0 (FetchOutcome.response status (Body.object m c p))).state
  refine ⟨added, ?_, h2⟩
  rw [h1, loadConfig_messages_of_object s0 status m c p hok]
  rfl

/-- C10 at the session `sampleActions`, started from a configuration fetched with status 200. -/
theorem history_append_only_witness :
    responseOk 200 = true ∧
      ∃ rest,
        (run (loadConfig (moduleInit [] "" "")
            (FetchOutcome.response 200
              (Body.object (some "m") (some "c") (some "p")))).state sampleActions).messages =
          { role := Role.system, content := some "p" } :: rest ∧
        ∀ x ∈ rest, x.role = Role.user ∨ x.role = Role.assistant :=
  ⟨by decide,
   (history_append_only (moduleInit [] "" "") 200 (some "m") (some "c") (some "p")
      (by decide) sampleActions).2⟩

end WebLLMWidget
